import Mathlib

/-!
Verification development for the notification-relay service
(FastAPI + RabbitMQ + Redis).  The definitions below are a shallow
embedding of `src/main.py`, `src/consumer.py` and `src/redis_utils.py`:
pure data transformations are Lean functions, stateful code is explicit
state passing, and fallible library calls (network, broker, store) are
modelled by explicit Boolean outcome parameters supplied by the
environment.
-/

/-! ## JSON values

The wire format of notification events is JSON produced by
`NotificationMessage.json()` (pydantic v1, which delegates to
`json.dumps` with its default separators and `ensure_ascii=True`) and
consumed by `json.loads` in `consumer.py`.  `JValue` is the shallow
embedding of a decoded Python JSON value; numeric literals keep their
raw lexeme since no claim depends on float semantics. -/

inductive JValue where
  | jnull
  | jbool (b : Bool)
  | jnum (raw : String)
  | jstr (s : String)
  | jarr (elems : List JValue)
  | jobj (members : List (String × JValue))

/-- Lower-case hexadecimal digit, as produced by `json.dumps`'s
`\uXXXX` escapes. -/
def hexDigitCh (n : Nat) : Char :=
  if n < 10 then Char.ofNat (48 + n) else Char.ofNat (87 + n)

/-- Four-digit hexadecimal rendering of `n < 0x10000`. -/
def hex4 (n : Nat) : List Char :=
  [hexDigitCh (n / 4096 % 16), hexDigitCh (n / 256 % 16),
   hexDigitCh (n / 16 % 16), hexDigitCh (n % 16)]

/-- Value of one hexadecimal digit, as accepted by `json.loads`. -/
def hexVal (c : Char) : Option Nat :=
  if '0' ≤ c ∧ c ≤ '9' then some (c.toNat - 48)
  else if 'a' ≤ c ∧ c ≤ 'f' then some (c.toNat - 87)
  else if 'A' ≤ c ∧ c ≤ 'F' then some (c.toNat - 55)
  else none

/-- Escaping of one character inside a JSON string literal, exactly as
`json.dumps` does with `ensure_ascii=True`: the seven short escapes,
printable ASCII (0x20..0x7e) verbatim, everything else as `\uXXXX`
(with a surrogate pair above the BMP). -/
def escapeChar (c : Char) : List Char :=
  if c = '"' then ['\\', '"']
  else if c = '\\' then ['\\', '\\']
  else if c = '\x08' then ['\\', 'b']
  else if c = '\t' then ['\\', 't']
  else if c = '\n' then ['\\', 'n']
  else if c = '\x0c' then ['\\', 'f']
  else if c = '\r' then ['\\', 'r']
  else if 32 ≤ c.toNat ∧ c.toNat ≤ 126 then [c]
  else if c.toNat < 65536 then '\\' :: 'u' :: hex4 c.toNat
  else
    '\\' :: 'u' :: hex4 (55296 + (c.toNat - 65536) / 1024) ++
      ('\\' :: 'u' :: hex4 (56320 + (c.toNat - 65536) % 1024))

def escapeList : List Char → List Char
  | [] => []
  | c :: cs => escapeChar c ++ escapeList cs

/-- A complete JSON string literal for `s` (quotes included). -/
def quoteStr (s : String) : List Char :=
  '"' :: (escapeList s.data ++ ['"'])

/-- JSON inter-token whitespace, as skipped by `json.loads`. -/
def skipWs : List Char → List Char
  | [] => []
  | c :: cs =>
    if c = ' ' ∨ c = '\t' ∨ c = '\n' ∨ c = '\r' then skipWs cs else c :: cs

/-- Translation table for the two-character escapes accepted by
`json.loads` (`py_scanstring`'s `BACKSLASH` map). -/
def escMap (e : Char) : Option Char :=
  if e = '"' then some '"'
  else if e = '\\' then some '\\'
  else if e = '/' then some '/'
  else if e = 'b' then some '\x08'
  else if e = 'f' then some '\x0c'
  else if e = 'n' then some '\n'
  else if e = 'r' then some '\r'
  else if e = 't' then some '\t'
  else none

/-- The character a pending lone `\uXXXX` escape decodes to (`chr` in
Python; a lone surrogate, unrepresentable in a Lean `Char`, is mapped
through `Char.ofNat` — no claim depends on that corner). -/
def flushPend : Option Nat → List Char
  | none => []
  | some n => [Char.ofNat n]

/-- Code point of a decoded surrogate pair (`py_scanstring`'s
`0x10000 + (((uni - 0xd800) << 10) | (uni2 - 0xdc00))`). -/
def surrPair (n n2 : Nat) : Char :=
  Char.ofNat (65536 + (n - 55296) * 1024 + (n2 - 56320))

/-- Body of a JSON string literal, after the opening quote: the
embedding of `json.loads`'s `py_scanstring` in strict mode (raw
control characters rejected).  `py_scanstring` combines a `\uXXXX`
high surrogate with an immediately following `\uXXXX` low surrogate;
the `pend` state carries such a high surrogate awaiting its possible
partner, exactly mirroring the scanner's one-escape lookahead. -/
def parseStrS : Option Nat → List Char → Option (List Char × List Char)
  | _, [] => none
  | pend, '"' :: rest => some (flushPend pend, rest)
  | pend, '\\' :: 'u' :: h1 :: h2 :: h3 :: h4 :: rest2 =>
    match hexVal h1, hexVal h2, hexVal h3, hexVal h4 with
    | some a, some b, some c1, some d =>
      let n2 := a * 4096 + b * 256 + c1 * 16 + d
      match pend with
      | some n =>
        if 56320 ≤ n2 ∧ n2 < 57344 then
          match parseStrS none rest2 with
          | some (l, r) => some (surrPair n n2 :: l, r)
          | none => none
        else if 55296 ≤ n2 ∧ n2 < 56320 then
          match parseStrS (some n2) rest2 with
          | some (l, r) => some (Char.ofNat n :: l, r)
          | none => none
        else
          match parseStrS none rest2 with
          | some (l, r) => some (Char.ofNat n :: Char.ofNat n2 :: l, r)
          | none => none
      | none =>
        if 55296 ≤ n2 ∧ n2 < 56320 then
          parseStrS (some n2) rest2
        else
          match parseStrS none rest2 with
          | some (l, r) => some (Char.ofNat n2 :: l, r)
          | none => none
    | _, _, _, _ => none
  | pend, '\\' :: e :: rest2 =>
    match escMap e with
    | some ec =>
      match parseStrS none rest2 with
      | some (l, r) => some (flushPend pend ++ ec :: l, r)
      | none => none
    | none => none
  | pend, c :: rest =>
    if c = '\\' then none
    else if c.toNat < 32 then none
    else
      match parseStrS none rest with
      | some (l, r) => some (flushPend pend ++ c :: l, r)
      | none => none

/-- Body of a JSON string literal after the opening quote
(`py_scanstring` with no pending surrogate). -/
def parseStrAux (cs : List Char) : Option (List Char × List Char) :=
  parseStrS none cs

/-- Longest digit prefix (used for the parts of a numeric literal). -/
def takeDigits : List Char → (List Char × List Char)
  | [] => ([], [])
  | c :: rest =>
    if c.isDigit then
      let (ds, r) := takeDigits rest
      (c :: ds, r)
    else ([], c :: rest)

/-- Optional fraction part `.[0-9]+` of a numeric literal; a lone dot
is not consumed (as with Python's `NUMBER_RE`). -/
def parseFracPart : List Char → (List Char × List Char)
  | '.' :: rest =>
    match takeDigits rest with
    | ([], _) => ([], '.' :: rest)
    | (ds, r) => ('.' :: ds, r)
  | cs => ([], cs)

/-- Optional exponent part `[eE][+-]?[0-9]+` of a numeric literal. -/
def parseExpPart : List Char → (List Char × List Char)
  | [] => ([], [])
  | e :: rest =>
    if e = 'e' ∨ e = 'E' then
      match rest with
      | s :: rest2 =>
        if s = '+' ∨ s = '-' then
          match takeDigits rest2 with
          | ([], _) => ([], e :: rest)
          | (ds, r) => (e :: s :: ds, r)
        else
          match takeDigits rest with
          | ([], _) => ([], e :: rest)
          | (ds, r) => (e :: ds, r)
      | [] => ([], [e])
    else ([], e :: rest)

def numTail (intPart : List Char) (rest : List Char) : (List Char × List Char) :=
  let (fr, r1) := parseFracPart rest
  let (ex, r2) := parseExpPart r1
  (intPart ++ fr ++ ex, r2)

/-- Unsigned part of a numeric literal: `0` or `[1-9][0-9]*`, with
optional fraction and exponent (Python's `NUMBER_RE`). -/
def parseNumCore : List Char → Option (List Char × List Char)
  | [] => none
  | '0' :: r1 => some (numTail ['0'] r1)
  | c :: r1 =>
    if c.isDigit then
      let (ds, r2) := takeDigits r1
      some (numTail (c :: ds) r2)
    else none

def parseNumber (cs : List Char) : Option (JValue × List Char) :=
  match cs with
  | '-' :: cs1 =>
    match parseNumCore cs1 with
    | some (l, r) => some (.jnum (String.mk ('-' :: l)), r)
    | none => none
  | cs1 =>
    match parseNumCore cs1 with
    | some (l, r) => some (.jnum (String.mk l), r)
    | none => none

mutual

/-- One JSON value, embedding `json.loads`'s recursive scanner
(`scan_once`): leading whitespace skipped, then a string, object,
array, constant or number.  `fuel` bounds the nesting depth; each
nesting level of a parseable document consumes at least one input
character, so the slack fuel `jsonParse` passes is always enough. -/
def parseValue : Nat → List Char → Option (JValue × List Char)
  | 0, _ => none
  | fuel + 1, cs =>
    match skipWs cs with
    | '"' :: rest =>
      match parseStrAux rest with
      | some (l, r) => some (.jstr (String.mk l), r)
      | none => none
    | '{' :: rest =>
      match skipWs rest with
      | '}' :: r => some (.jobj [], r)
      | r =>
        match parseMembers fuel r with
        | some (ms, r2) => some (.jobj ms, r2)
        | none => none
    | '[' :: rest =>
      match skipWs rest with
      | ']' :: r => some (.jarr [], r)
      | r =>
        match parseElems fuel r with
        | some (es, r2) => some (.jarr es, r2)
        | none => none
    | 't' :: 'r' :: 'u' :: 'e' :: rest => some (.jbool true, rest)
    | 'f' :: 'a' :: 'l' :: 's' :: 'e' :: rest => some (.jbool false, rest)
    | 'n' :: 'u' :: 'l' :: 'l' :: rest => some (.jnull, rest)
    | 'N' :: 'a' :: 'N' :: rest => some (.jnum "NaN", rest)
    | 'I' :: 'n' :: 'f' :: 'i' :: 'n' :: 'i' :: 't' :: 'y' :: rest =>
      some (.jnum "Infinity", rest)
    | '-' :: 'I' :: 'n' :: 'f' :: 'i' :: 'n' :: 'i' :: 't' :: 'y' :: rest =>
      some (.jnum "-Infinity", rest)
    | cs2 => parseNumber cs2

/-- Members of a JSON object after the opening brace (non-empty case):
quoted key, colon, value, then either a comma and more members or the
closing brace. -/
def parseMembers : Nat → List Char → Option (List (String × JValue) × List Char)
  | 0, _ => none
  | fuel + 1, cs =>
    match cs with
    | '"' :: rest =>
      match parseStrAux rest with
      | some (k, r1) =>
        match skipWs r1 with
        | ':' :: r2 =>
          match parseValue fuel r2 with
          | some (v, r3) =>
            match skipWs r3 with
            | ',' :: r4 =>
              match parseMembers fuel (skipWs r4) with
              | some (ms, r5) => some ((String.mk k, v) :: ms, r5)
              | none => none
            | '}' :: r4 => some ([(String.mk k, v)], r4)
            | _ => none
          | none => none
        | _ => none
      | none => none
    | _ => none

/-- Elements of a JSON array after the opening bracket (non-empty
case). -/
def parseElems : Nat → List Char → Option (List JValue × List Char)
  | 0, _ => none
  | fuel + 1, cs =>
    match parseValue fuel cs with
    | some (v, r1) =>
      match skipWs r1 with
      | ',' :: r2 =>
        match parseElems fuel r2 with
        | some (es, r3) => some (v :: es, r3)
        | none => none
      | ']' :: r2 => some ([v], r2)
      | _ => none
    | none => none

end

/-- The embedding of `json.loads` on an (already UTF-8 decoded)
string: parse one value, then require only whitespace to remain
("Extra data" otherwise). -/
def jsonParse (s : String) : Option JValue :=
  match parseValue (s.length + 5) s.data with
  | some (v, rest) => if skipWs rest = [] then some v else none
  | none => none

example : jsonParse "true" = some (.jbool true) := rfl
example : jsonParse "{}" = some (.jobj []) := rfl
example : jsonParse "not json" = none := rfl
example : jsonParse "\x7b\"a\": \"b\"\x7d" = some (.jobj [("a", .jstr "b")]) := rfl
example : jsonParse "[1, 2]" = some (.jarr [.jnum "1", .jnum "2"]) := rfl
example : jsonParse "\x7b\"a\": 1" = none := rfl
example : jsonParse "\"a\\u00e9b\"" = some (.jstr "aéb") := rfl

/-! ## Notification events (`src/main.py`)

`NotificationMessage` is the pydantic model of `main.py`; `timestamp`
is a `datetime` rendered by pydantic's JSON encoder as its ISO-8601
string, so the instant is embedded here as that string. -/

structure NotificationMessage where
  message : String
  item_id : String
  timestamp : String
deriving DecidableEq

/-- The wire payload produced by `notification.json()` in
`send_notification` / `create_item`: pydantic v1 delegates to
`json.dumps` of the field dict, with default separators `", "` and
`": "`, fields in declaration order (message, item_id, timestamp), and
`ensure_ascii` escaping (the `quoteStr` above).  The `.encode()` to
UTF-8 bytes and the consumer's `.decode()` are inverse by
construction, so the payload is embedded at the string level. -/
def serializeNotification (n : NotificationMessage) : String :=
  String.mk ('{' :: (quoteStr "message" ++ (':' :: ' ' :: (quoteStr n.message ++
    (',' :: ' ' :: (quoteStr "item_id" ++ (':' :: ' ' :: (quoteStr n.item_id ++
    (',' :: ' ' :: (quoteStr "timestamp" ++ (':' :: ' ' :: (quoteStr n.timestamp ++
    ['}']))))))))))))

/-- `dict.get`: Python dicts built by `json.loads` keep the LAST
occurrence of a duplicated key, so lookup is over the reversed member
list. -/
def lookupMember (ms : List (String × JValue)) (k : String) : Option JValue :=
  match ms.reverse.find? (fun m => m.1 = k) with
  | some m => some m.2
  | none => none

/-! ## Consumer dispatch (`src/consumer.py`, `process_message`) -/

/-- Outcome of one delivered message at the broker: `message.ack()` or
`message.nack(requeue=...)`. -/
inductive MsgAction where
  | ack
  | nack (requeue : Bool)
deriving DecidableEq

/-- The fields the consumer reads from a decoded notification:
`notification_data.get('message', 'N/A')` and likewise for `item_id`
and `timestamp` (present only when the payload decoded to a dict). -/
def consumedFields (body : String) : Option (JValue × JValue × JValue) :=
  match jsonParse body with
  | some (.jobj ms) =>
    some ((lookupMember ms "message").getD (.jstr "N/A"),
          (lookupMember ms "item_id").getD (.jstr "N/A"),
          (lookupMember ms "timestamp").getD (.jstr "N/A"))
  | _ => none

/-- `process_message` of `consumer.py` on the (UTF-8 decoded) message
body.  The `try` block decodes the body, runs `json.loads`, reads the
three fields with `.get` (which raises `AttributeError` unless the
decoded value is a dict), prints them, and acks; any exception is
caught by the `except` clause, which nacks with `requeue=True`. -/
def process_message (body : String) : MsgAction :=
  match jsonParse body with
  | some (.jobj _) => .ack
  | some _ => .nack true
  | none => .nack true

/-- The round-trip reading of the consumer's field extraction: decode
the payload with `json.loads` and reassemble the three fields the
consumer reads into a `NotificationMessage` (possible only when each
field is present and is a string). -/
def deserializeNotification (body : String) : Option NotificationMessage :=
  match jsonParse body with
  | some (.jobj ms) =>
    match lookupMember ms "message", lookupMember ms "item_id",
          lookupMember ms "timestamp" with
    | some (.jstr m), some (.jstr i), some (.jstr t) => some ⟨m, i, t⟩
    | _, _, _ => none
  | _ => none

/-! ## RabbitMQ connection lifecycle (`src/main.py`, `connect_rabbitmq`) -/

/-- Observable broker-side actions of `connect_rabbitmq`: a transport
connect attempt (with its `timeout` and `heartbeat` arguments), the
durable queue declaration, and the inter-attempt `asyncio.sleep`. -/
inductive ConnectEvent where
  | attemptConnect (timeout : Nat) (heartbeat : Nat)
  | declareQueue (name : String) (durable : Bool)
  | sleepDelay (d : Nat)
deriving DecidableEq

structure ConnectResult where
  /-- the Boolean `connect_rabbitmq` returns -/
  success : Bool
  /-- broker-side actions, in order -/
  events : List ConnectEvent
  /-- whether the global `rabbitmq_channel` was cached by this call -/
  channelCached : Bool
deriving DecidableEq

def max_retries : Nat := 5
def retry_delay : Nat := 2

/-- One execution of the `for attempt in range(max_retries)` loop body
and its successors, starting at index `attempt` with `remaining`
iterations left, abstracted to whole attempts: `ok i` tells whether
the i-th attempt (transport connect with `timeout=10, heartbeat=600`,
channel open, durable queue declaration) succeeds as a whole.  On
failure the code sleeps `retry_delay` between attempts and returns
`False` after the last one.  This view carries exactly the Boolean the
calling handlers (`send_notification`, `health_check`,
`get_queue_status`) consume; the faithful per-call model, with each
attempt split into its three fallible calls and the module globals
they assign, is `connectLoopFull` below, and
`connect_rabbitmq_success_agrees` proves the two return the same
Boolean. -/
def connectLoop (ok : Nat → Bool) : Nat → Nat → ConnectResult
  | _, 0 => ⟨false, [], false⟩
  | attempt, remaining + 1 =>
    if ok attempt then
      ⟨true, [.attemptConnect 10 600, .declareQueue "notifications" true], true⟩
    else if remaining = 0 then
      ⟨false, [.attemptConnect 10 600], false⟩
    else
      let r := connectLoop ok (attempt + 1) remaining
      ⟨r.success, .attemptConnect 10 600 :: .sleepDelay retry_delay :: r.events,
       r.channelCached⟩

/-- `connect_rabbitmq` of `main.py`, with the per-attempt outcome
oracle `ok` standing for the broker environment. -/
def connect_rabbitmq (ok : Nat → Bool) : ConnectResult :=
  connectLoop ok 0 max_retries

/-- Where one iteration of the `connect_rabbitmq` loop body stops:
`connect_robust` raises; `connection.channel()` raises (after the
`rabbitmq_connection` global was assigned); `declare_queue` raises
(after both globals were assigned); or all three calls succeed. -/
inductive AttemptOutcome where
  | connectFail
  | channelFail
  | declareFail
  | success
deriving DecidableEq

/-- The module globals of `main.py` the loop body assigns: whether
`rabbitmq_connection` and `rabbitmq_channel` hold a handle.  The
`except` path never clears them. -/
structure RabbitGlobals where
  connectionSet : Bool
  channelSet : Bool
deriving DecidableEq

/-- Global assignments performed by one loop iteration before it
raises (or completes): `rabbitmq_connection = await connect_robust(...)`
runs before `rabbitmq_channel = await connection.channel()`, which
runs before `declare_queue`; a raise at any point keeps every
assignment already made. -/
def attemptGlobals : AttemptOutcome → RabbitGlobals → RabbitGlobals
  | .connectFail, g => g
  | .channelFail, g => ⟨true, g.channelSet⟩
  | .declareFail, _ => ⟨true, true⟩
  | .success, _ => ⟨true, true⟩

/-- Broker-side actions one loop iteration performs before it raises
(or completes): the connect attempt always, the queue declaration only
once the channel is open (the declaration call is made — and this
event emitted — even when it raises). -/
def attemptEvents : AttemptOutcome → List ConnectEvent
  | .connectFail => [.attemptConnect 10 600]
  | .channelFail => [.attemptConnect 10 600]
  | .declareFail => [.attemptConnect 10 600, .declareQueue "notifications" true]
  | .success => [.attemptConnect 10 600, .declareQueue "notifications" true]

/-- Result of a full `connect_rabbitmq` run: the returned Boolean, the
broker-side actions, and the module globals after the call. -/
structure ConnectRun where
  success : Bool
  events : List ConnectEvent
  globals : RabbitGlobals
deriving DecidableEq

/-- The faithful `connect_rabbitmq` loop: each attempt's outcome is
one of the four `AttemptOutcome`s, the globals are threaded through
(assigned as far as the attempt got, never cleared on failure), the
code sleeps `retry_delay` between failed attempts and returns `False`
after the last one. -/
def connectLoopFull (st : Nat → AttemptOutcome) :
    Nat → Nat → RabbitGlobals → ConnectRun
  | _, 0, g => ⟨false, [], g⟩
  | attempt, remaining + 1, g =>
    if st attempt = .success then
      ⟨true, [.attemptConnect 10 600, .declareQueue "notifications" true],
        ⟨true, true⟩⟩
    else if remaining = 0 then
      ⟨false, attemptEvents (st attempt), attemptGlobals (st attempt) g⟩
    else
      let r := connectLoopFull st (attempt + 1) remaining
        (attemptGlobals (st attempt) g)
      ⟨r.success,
        attemptEvents (st attempt) ++ .sleepDelay retry_delay :: r.events,
        r.globals⟩

/-- `connect_rabbitmq` of `main.py` over the per-call outcome oracle
`st` and the globals `g` holding whatever a previous call left. -/
def connect_rabbitmq_full (st : Nat → AttemptOutcome) (g : RabbitGlobals) :
    ConnectRun :=
  connectLoopFull st 0 max_retries g

/-- Result of the `/notify` handler `send_notification`. -/
structure NotifyOutcome where
  /-- HTTP status: 200 on success, 503/500 via `HTTPException` -/
  status : Nat
  /-- whether a message was published to the queue -/
  published : Bool
  /-- number of `connect_rabbitmq` invocations made by the handler -/
  connectCalls : Nat
  /-- number of `default_exchange.publish` invocations made -/
  publishAttempts : Nat
deriving DecidableEq

/-- `send_notification` (`POST /notify`): if the global channel is
absent, call `connect_rabbitmq` once; if that fails, raise 503 without
publishing.  Otherwise publish the `NotificationMessage` once;
`publishOk` tells whether the broker publish raises (500). -/
def send_notification (channelPresent : Bool) (ok : Nat → Bool)
    (publishOk : Bool) : NotifyOutcome :=
  if channelPresent then
    if publishOk then ⟨200, true, 0, 1⟩ else ⟨500, false, 0, 1⟩
  else if (connect_rabbitmq ok).success then
    if publishOk then ⟨200, true, 1, 1⟩ else ⟨500, false, 1, 1⟩
  else ⟨503, false, 1, 0⟩

/-- Result of the `POST /items/` handler `create_item`. -/
structure CreateOutcome where
  /-- whether the MongoDB insert committed -/
  committed : Bool
  /-- HTTP status: 200 on success, 500 via the catch-all `except` -/
  status : Nat
  /-- whether the notification was published -/
  notified : Bool
deriving DecidableEq

/-- `create_item` (`POST /items/`): insert the record, then (inside
the same `try`) cache it in Redis when a client exists, publish the
notification when a channel exists, and read the record back.  Any
raised step aborts the remainder and yields HTTP 500 — but nothing
rolls the committed insert back.  `insertOk`, `cacheOk`, `publishOk`
and `findOk` tell whether the respective external calls raise;
`redisPresent` / `channelPresent` are the global handle checks. -/
def create_item (insertOk redisPresent cacheOk channelPresent publishOk
    findOk : Bool) : CreateOutcome :=
  if !insertOk then ⟨false, 500, false⟩
  else if redisPresent && !cacheOk then ⟨true, 500, false⟩
  else if channelPresent && !publishOk then ⟨true, 500, false⟩
  else if !findOk then ⟨true, 500, channelPresent⟩
  else ⟨true, 200, channelPresent⟩

/-- Result of the `/health` handler. -/
structure HealthReport where
  status : String
  mongodb : String
  redisService : String
  rabbitmq : String
  /-- number of `connect_rabbitmq` invocations made by the probe -/
  rabbitConnectCalls : Nat
deriving DecidableEq

/-- `health_check` (`GET /health`): ping MongoDB and Redis, then for
RabbitMQ: if the connection object exists and is not closed, verify
the channel by fetching the queue; otherwise call `connect_rabbitmq`
once and report `reconnected` / `disconnected`.  A raised queue fetch
lands in the outer `except`, which reports an error and fires one
best-effort reconnect.  Every failing service flips the overall
status to `degraded`. -/
def health_check (mongoOk redisPresent redisOk connPresent connClosed
    channelPresent getQueueOk : Bool) (ok : Nat → Bool) : HealthReport :=
  let mongoS := if mongoOk then "connected" else "error"
  let redisS :=
    if redisPresent then (if redisOk then "connected" else "error")
    else "not initialized"
  let redisBad := !redisPresent || !redisOk
  let (rabbitS, rabbitBad, calls) :=
    if connPresent && !connClosed then
      if channelPresent then
        if getQueueOk then ("connected", false, 0)
        else ("error", true, 1)
      else ("channel not available", true, 0)
    else
      if (connect_rabbitmq ok).success then ("reconnected", false, 1)
      else ("disconnected", true, 1)
  let status := if !mongoOk || redisBad || rabbitBad then "degraded" else "healthy"
  ⟨status, mongoS, redisS, rabbitS, calls⟩

/-! ## Consumer startup (`src/consumer.py`, `main`) -/

/-- Observable broker-side actions of the consumer's `main`. -/
inductive ConsumerEvent where
  | connect
  | openChannel
  | setQos (prefetch : Nat)
  | declareQueue (name : String) (durable : Bool)
  | consume (queue : String)
deriving DecidableEq

/-- The consumer's `main`: connect, open a channel, `set_qos`
(`prefetch_count=1`), declare the durable `notifications` queue, then
subscribe `process_message` on it.  Each step runs inside one `try`,
so a raising step aborts the remainder; the flags tell which external
calls succeed.  The returned list is the sequence of completed
broker-side actions. -/
def consumer_main (connectOk chanOk qosOk declOk : Bool) : List ConsumerEvent :=
  if !connectOk then []
  else .connect ::
    (if !chanOk then []
     else .openChannel ::
       (if !qosOk then [.setQos 1]
        else .setQos 1 ::
          (if !declOk then [.declareQueue "notifications" true]
           else [.declareQueue "notifications" true, .consume "notifications"])))

/-! ## Cache store (`src/redis_utils.py`, `RedisManager`)

The Redis server is embedded as an association list from key to the
stored string value together with its TTL in seconds (TTL is recorded
by `setex` but no claim exercises expiry).  Each `RedisManager` method
takes: `connected` — whether `self.redis_client` is set, `raises` —
whether the underlying awaited client call raises (network error,
wrong-type error, ...), the server state, and the method arguments; it
returns the Python return value and the new server state. -/

structure RedisDB where
  store : List (String × String × Nat)
  infoPairs : List (String × String)
deriving DecidableEq

def dbLookup (db : RedisDB) (k : String) : Option String :=
  match db.store.find? (fun e => e.1 = k) with
  | some e => some e.2.1
  | none => none

/-- Overwrite semantics with TTL reset on every write (`SETEX`). -/
def dbSet (db : RedisDB) (k v : String) (ttl : Nat) : RedisDB :=
  ⟨(k, v, ttl) :: db.store.filter (fun e => ¬ (e.1 = k)), db.infoPairs⟩

/-- `DEL` of one key: whether it existed, and the remaining store. -/
def dbDel (db : RedisDB) (k : String) : Bool × RedisDB :=
  ((dbLookup db k).isSome,
   ⟨db.store.filter (fun e => ¬ (e.1 = k)), db.infoPairs⟩)

/-- Redis glob-style pattern match (`KEYS`): `*`, `?`, and literal
characters (character classes are not exercised by the source). -/
def globMatch : List Char → List Char → Bool
  | [], [] => true
  | [], _ :: _ => false
  | '*' :: ps, [] => globMatch ps []
  | '*' :: ps, c :: ss => globMatch ps (c :: ss) || globMatch ('*' :: ps) ss
  | '?' :: ps, _ :: ss => globMatch ps ss
  | _ :: _, [] => false
  | p :: ps, c :: ss => p = c && globMatch ps ss
termination_by ps ss => ps.length + ss.length
decreasing_by all_goals simp_wf <;> omega

/-- `set_item_cache`: `SETEX item:<id>` with the JSON dump of the item
(already-serialized payload passed in) and `expiry_hours * 3600`;
`False` when the client is absent or the call raises, `True`
otherwise. -/
def set_item_cache (connected : Bool) (raises : Bool) (db : RedisDB)
    (item_id : String) (item_data : String) (expiry_hours : Nat) :
    Bool × RedisDB :=
  if !connected then (false, db)
  else if raises then (false, db)
  else (true, dbSet db ("item:" ++ item_id) item_data (expiry_hours * 3600))

/-- `get_item_cache`: `GET item:<id>` then `json.loads`; `None` when
the client is absent, the call raises, the key is missing (or its
value is the empty — falsy — string), or the stored value is not
valid JSON (the `except` catches the decode error). -/
def get_item_cache (connected : Bool) (raises : Bool) (db : RedisDB)
    (item_id : String) : Option JValue :=
  if !connected then none
  else if raises then none
  else
    match dbLookup db ("item:" ++ item_id) with
    | some v => if v = "" then none else jsonParse v
    | none => none

/-- `delete_item_cache`: `DEL item:<id>` converted to `bool`; `False`
when the client is absent or the call raises. -/
def delete_item_cache (connected : Bool) (raises : Bool) (db : RedisDB)
    (item_id : String) : Bool × RedisDB :=
  if !connected then (false, db)
  else if raises then (false, db)
  else
    let (existed, db2) := dbDel db ("item:" ++ item_id)
    (existed, db2)

/-- Decimal digits to a number; `none` when empty or non-digit. -/
def digitsToNatAux : Nat → List Char → Option Nat
  | acc, [] => some acc
  | acc, c :: cs =>
    if c.isDigit then digitsToNatAux (acc * 10 + (c.toNat - 48)) cs else none

def digitsToNat : List Char → Option Nat
  | [] => none
  | l => digitsToNatAux 0 l

/-- Parsing of a stored counter value as a signed decimal integer
(Redis `INCRBY` parsing, also how Python `int()` reads the canonical
values this code writes): optional sign, then digits only. -/
def parseIntStr (s : String) : Option Int :=
  match s.data with
  | '-' :: ds =>
    match digitsToNat ds with
    | some n => some (-(n : Int))
    | none => none
  | '+' :: ds =>
    match digitsToNat ds with
    | some n => some ((n : Int))
    | none => none
  | ds =>
    match digitsToNat ds with
    | some n => some ((n : Int))
    | none => none

/-- `set_counter`: `INCRBY counter:<name> value`; Redis auto-creates
an absent counter at 0 and adds the signed increment atomically,
returning the new value; a stored non-integer value makes `INCRBY`
raise, which the `except` converts to `None`, as are an absent client
and a raising call. -/
def set_counter (connected : Bool) (raises : Bool) (db : RedisDB)
    (counter_name : String) (value : Int) : Option Int × RedisDB :=
  if !connected then (none, db)
  else if raises then (none, db)
  else
    let key := "counter:" ++ counter_name
    match dbLookup db key with
    | none => (some value, dbSet db key (toString value) 0)
    | some s =>
      match parseIntStr s with
      | some i => (some (i + value), dbSet db key (toString (i + value)) 0)
      | none => (none, db)

/-- `get_counter`: `GET counter:<name>`; `int(result) if result else
0`, so an absent key (or falsy empty value) reads as `0`, while an
absent client, a raising call, or a non-integer stored value (making
`int()` raise) yields `None`. -/
def get_counter (connected : Bool) (raises : Bool) (db : RedisDB)
    (counter_name : String) : Option Int :=
  if !connected then none
  else if raises then none
  else
    match dbLookup db ("counter:" ++ counter_name) with
    | none => some 0
    | some s =>
      if s = "" then some 0
      else
        match parseIntStr s with
        | some i => some i
        | none => none

/-- `set_session`: `SETEX session:<id>`, same shape as
`set_item_cache`. -/
def set_session (connected : Bool) (raises : Bool) (db : RedisDB)
    (session_id : String) (session_data : String) (expiry_hours : Nat) :
    Bool × RedisDB :=
  if !connected then (false, db)
  else if raises then (false, db)
  else (true, dbSet db ("session:" ++ session_id) session_data (expiry_hours * 3600))

/-- `get_session`: `GET session:<id>` then `json.loads`, same shape as
`get_item_cache`. -/
def get_session (connected : Bool) (raises : Bool) (db : RedisDB)
    (session_id : String) : Option JValue :=
  if !connected then none
  else if raises then none
  else
    match dbLookup db ("session:" ++ session_id) with
    | some v => if v = "" then none else jsonParse v
    | none => none

/-- `get_all_keys`: `KEYS pattern` decoded to strings; the empty list
when the client is absent or the call raises. -/
def get_all_keys (connected : Bool) (raises : Bool) (db : RedisDB)
    (pattern : String) : List String :=
  if !connected then []
  else if raises then []
  else (db.store.filter (fun e => globMatch pattern.data e.1.data)).map (fun e => e.1)

/-- The summary `get_redis_info` builds from `INFO`. -/
structure RedisSummary where
  redis_version : Option String
  used_memory_human : Option String
  connected_clients : Option String
  uptime_in_seconds : Option String
  keyspace : List (String × String)
deriving DecidableEq

def infoLookup (ps : List (String × String)) (k : String) : Option String :=
  match ps.find? (fun e => e.1 = k) with
  | some e => some e.2
  | none => none

/-- `get_redis_info`: `INFO` summarized to version, memory, clients,
uptime and the `db*` keyspace entries; `None` when the client is
absent or the call raises. -/
def get_redis_info (connected : Bool) (raises : Bool) (db : RedisDB) :
    Option RedisSummary :=
  if !connected then none
  else if raises then none
  else some
    ⟨infoLookup db.infoPairs "redis_version",
     infoLookup db.infoPairs "used_memory_human",
     infoLookup db.infoPairs "connected_clients",
     infoLookup db.infoPairs "uptime_in_seconds",
     db.infoPairs.filter (fun e => e.1.startsWith "db")⟩

/-- The characters of one serialized object member `"k": "v"` followed
by `after` — the building block of the serialized notification: quoted
escaped key, the `": "` separator, quoted escaped value. -/
def memberChars (kd vd : List Char) (after : List Char) : List Char :=
  '"' :: (escapeList kd ++
    ('"' :: ':' :: ' ' :: '"' :: (escapeList vd ++ ('"' :: after))))


/-- The decoded JSON value of a serialized notification. -/
def notifJson (n : NotificationMessage) : JValue :=
  .jobj [("message", .jstr n.message), ("item_id", .jstr n.item_id),
    ("timestamp", .jstr n.timestamp)]

/-! ## Helper lemmas -/

theorem dbLookup_dbSet_self (db : RedisDB) (k v : String) (ttl : Nat) :
    dbLookup (dbSet db k v ttl) k = some v := by
  simp [dbLookup, dbSet, List.find?]

/-- Every broker-side event `connect_rabbitmq` can emit: attempts use
`timeout=10, heartbeat=600`, sleeps use `retry_delay`, and the only
queue declared is the durable `notifications` queue. -/
theorem connectLoop_events_shape (ok : Nat → Bool) :
    ∀ remaining attempt e, e ∈ (connectLoop ok attempt remaining).events →
      e = .attemptConnect 10 600 ∨ e = .sleepDelay retry_delay ∨
        e = .declareQueue "notifications" true := by
  intro remaining
  induction remaining with
  | zero => intro attempt e he; simp [connectLoop] at he
  | succ m ih =>
    intro attempt e he
    by_cases hok : ok attempt
    · simp [connectLoop, hok] at he
      rcases he with h | h <;> simp [h]
    · by_cases hm : m = 0
      · subst hm; simp [connectLoop, hok] at he; simp [he]
      · simp [connectLoop, hok, hm] at he
        rcases he with h | h | h
        · simp [h]
        · simp [h]
        · exact ih (attempt + 1) e h

theorem hexVal_hexDigitCh (d : Nat) (h : d < 16) : hexVal (hexDigitCh d) = some d := by
  interval_cases d <;> rfl

theorem parseStrS_none_plain (c : Char) (rest : List Char)
    (h1 : c ≠ '"') (h2 : c ≠ '\\') (h3 : 32 ≤ c.toNat) :
    parseStrS none (c :: rest) =
      match parseStrS none rest with
      | some (l, r) => some (c :: l, r)
      | none => none := by
  rw [parseStrS.eq_def]
  split <;> simp_all [flushPend]

theorem parseStrS_u_eq (pend : Option Nat) (h1 h2 h3 h4 : Char) (rest2 : List Char) :
    parseStrS pend ('\\' :: 'u' :: h1 :: h2 :: h3 :: h4 :: rest2) =
      match hexVal h1, hexVal h2, hexVal h3, hexVal h4 with
      | some a, some b, some c1, some d =>
        let n2 := a * 4096 + b * 256 + c1 * 16 + d
        match pend with
        | some n =>
          if 56320 ≤ n2 ∧ n2 < 57344 then
            match parseStrS none rest2 with
            | some (l, r) => some (surrPair n n2 :: l, r)
            | none => none
          else if 55296 ≤ n2 ∧ n2 < 56320 then
            match parseStrS (some n2) rest2 with
            | some (l, r) => some (Char.ofNat n :: l, r)
            | none => none
          else
            match parseStrS none rest2 with
            | some (l, r) => some (Char.ofNat n :: Char.ofNat n2 :: l, r)
            | none => none
        | none =>
          if 55296 ≤ n2 ∧ n2 < 56320 then
            parseStrS (some n2) rest2
          else
            match parseStrS none rest2 with
            | some (l, r) => some (Char.ofNat n2 :: l, r)
            | none => none
      | _, _, _, _ => none := rfl

theorem parseStrS_none_escape (c : Char) (tail : List Char) :
    parseStrS none (escapeChar c ++ tail) =
      match parseStrS none tail with
      | some (l, r) => some (c :: l, r)
      | none => none := by
  have hval : c.toNat < 55296 ∨ (57344 ≤ c.toNat ∧ c.toNat < 1114112) := by
    rcases c.valid with h | ⟨ha, hc⟩
    · exact Or.inl h
    · exact Or.inr ⟨ha, hc⟩
  by_cases hq : c = '"'
  · subst hq; rfl
  · by_cases hb : c = '\\'
    · subst hb; rfl
    · by_cases h08 : c = '\x08'
      · subst h08; rfl
      · by_cases ht : c = '\t'
        · subst ht; rfl
        · by_cases hn : c = '\n'
          · subst hn; rfl
          · by_cases h0c : c = '\x0c'
            · subst h0c; rfl
            · by_cases hr : c = '\r'
              · subst hr; rfl
              · by_cases hascii : 32 ≤ c.toNat ∧ c.toNat ≤ 126
                · rw [show escapeChar c = [c] by
                    simp [escapeChar, hq, hb, h08, ht, hn, h0c, hr, hascii]]
                  exact parseStrS_none_plain c tail hq hb hascii.1
                · by_cases hbmp : c.toNat < 65536
                  · have hesc : escapeChar c = '\\' :: 'u' :: hex4 c.toNat := by
                      simp [escapeChar, hq, hb, h08, ht, hn, h0c, hr, hascii, hbmp]
                    have e1 := hexVal_hexDigitCh (c.toNat / 4096 % 16) (by omega)
                    have e2 := hexVal_hexDigitCh (c.toNat / 256 % 16) (by omega)
                    have e3 := hexVal_hexDigitCh (c.toNat / 16 % 16) (by omega)
                    have e4 := hexVal_hexDigitCh (c.toNat % 16) (by omega)
                    have hrec : c.toNat / 4096 % 16 * 4096 + c.toNat / 256 % 16 * 256 +
                        c.toNat / 16 % 16 * 16 + c.toNat % 16 = c.toNat := by omega
                    have hns : ¬ (55296 ≤ c.toNat ∧ c.toNat < 56320) := by
                      rcases hval with h | ⟨ha, hc⟩ <;> omega
                    rw [hesc]
                    simp only [hex4, List.cons_append]
                    rw [parseStrS_u_eq]
                    simp only [e1, e2, e3, e4, hrec]
                    rw [if_neg hns, Char.ofNat_toNat]
                    simp only [List.nil_append]
                  · have h65 : 65536 ≤ c.toNat := by omega
                    have hup : c.toNat < 1114112 := by
                      rcases hval with h | ⟨ha, hc⟩ <;> omega
                    have hesc : escapeChar c =
                        '\\' :: 'u' :: hex4 (55296 + (c.toNat - 65536) / 1024) ++
                          ('\\' :: 'u' :: hex4 (56320 + (c.toNat - 65536) % 1024)) := by
                      simp [escapeChar, hq, hb, h08, ht, hn, h0c, hr, hascii, hbmp]
                    have hhib : 55296 + (c.toNat - 65536) / 1024 < 65536 := by omega
                    have hlob : 56320 + (c.toNat - 65536) % 1024 < 65536 := by omega
                    have e1 := hexVal_hexDigitCh ((55296 + (c.toNat - 65536) / 1024) / 4096 % 16) (by omega)
                    have e2 := hexVal_hexDigitCh ((55296 + (c.toNat - 65536) / 1024) / 256 % 16) (by omega)
                    have e3 := hexVal_hexDigitCh ((55296 + (c.toNat - 65536) / 1024) / 16 % 16) (by omega)
                    have e4 := hexVal_hexDigitCh ((55296 + (c.toNat - 65536) / 1024) % 16) (by omega)
                    have f1 := hexVal_hexDigitCh ((56320 + (c.toNat - 65536) % 1024) / 4096 % 16) (by omega)
                    have f2 := hexVal_hexDigitCh ((56320 + (c.toNat - 65536) % 1024) / 256 % 16) (by omega)
                    have f3 := hexVal_hexDigitCh ((56320 + (c.toNat - 65536) % 1024) / 16 % 16) (by omega)
                    have f4 := hexVal_hexDigitCh ((56320 + (c.toNat - 65536) % 1024) % 16) (by omega)
                    have hreci : (55296 + (c.toNat - 65536) / 1024) / 4096 % 16 * 4096 +
                        (55296 + (c.toNat - 65536) / 1024) / 256 % 16 * 256 +
                        (55296 + (c.toNat - 65536) / 1024) / 16 % 16 * 16 +
                        (55296 + (c.toNat - 65536) / 1024) % 16 =
                        55296 + (c.toNat - 65536) / 1024 := by omega
                    have hrecl : (56320 + (c.toNat - 65536) % 1024) / 4096 % 16 * 4096 +
                        (56320 + (c.toNat - 65536) % 1024) / 256 % 16 * 256 +
                        (56320 + (c.toNat - 65536) % 1024) / 16 % 16 * 16 +
                        (56320 + (c.toNat - 65536) % 1024) % 16 =
                        56320 + (c.toNat - 65536) % 1024 := by omega
                    have hisur : 55296 ≤ 55296 + (c.toNat - 65536) / 1024 ∧
                        55296 + (c.toNat - 65536) / 1024 < 56320 := by omega
                    have hlosur : 56320 ≤ 56320 + (c.toNat - 65536) % 1024 ∧
                        56320 + (c.toNat - 65536) % 1024 < 57344 := by omega
                    have hsp : surrPair (55296 + (c.toNat - 65536) / 1024)
                        (56320 + (c.toNat - 65536) % 1024) = c := by
                      unfold surrPair
                      rw [show 65536 + (55296 + (c.toNat - 65536) / 1024 - 55296) * 1024 +
                        (56320 + (c.toNat - 65536) % 1024 - 56320) = c.toNat by omega]
                      exact Char.ofNat_toNat c
                    rw [hesc]
                    simp only [hex4, List.cons_append, List.append_assoc, List.nil_append]
                    rw [parseStrS_u_eq]
                    simp only [e1, e2, e3, e4, hreci]
                    rw [if_pos hisur]
                    rw [parseStrS_u_eq]
                    simp only [f1, f2, f3, f4, hrecl]
                    rw [if_pos hlosur, hsp]

theorem parseStrS_escapeList (s rest : List Char) :
    parseStrS none (escapeList s ++ '"' :: rest) = some (s, rest) := by
  induction s with
  | nil => rfl
  | cons c cs ih =>
    rw [escapeList, List.append_assoc, parseStrS_none_escape, ih]

theorem skipWs_colon (r : List Char) : skipWs (':' :: r) = ':' :: r := rfl

theorem skipWs_quote (r : List Char) : skipWs ('"' :: r) = '"' :: r := rfl

theorem skipWs_memberChars (kd vd : List Char) (after : List Char) :
    skipWs (memberChars kd vd after) = memberChars kd vd after := rfl

theorem parseValue_space (fuel : Nat) (rest : List Char) :
    parseValue (fuel + 1) (' ' :: rest) = parseValue (fuel + 1) rest := rfl

theorem parseValue_qstr (fuel : Nat) (rest : List Char) :
    parseValue (fuel + 1) ('"' :: rest) =
      match parseStrAux rest with
      | some (l, r) => some (JValue.jstr (String.mk l), r)
      | none => none := rfl

theorem parseValue_obj_member (fuel : Nat) (kd vd after : List Char) :
    parseValue (fuel + 1) ('{' :: memberChars kd vd after) =
      match parseMembers fuel (memberChars kd vd after) with
      | some (ms, r2) => some (JValue.jobj ms, r2)
      | none => none := rfl

theorem parseMembers_quote (fuel : Nat) (rest : List Char) :
    parseMembers (fuel + 1) ('"' :: rest) =
      match parseStrAux rest with
      | some (k, r1) =>
        match skipWs r1 with
        | ':' :: r2 =>
          match parseValue fuel r2 with
          | some (v, r3) =>
            match skipWs r3 with
            | ',' :: r4 =>
              match parseMembers fuel (skipWs r4) with
              | some (ms, r5) => some ((String.mk k, v) :: ms, r5)
              | none => none
            | '}' :: r4 => some ([(String.mk k, v)], r4)
            | _ => none
          | none => none
        | _ => none
      | none => none := rfl

theorem parseMembers_member (fuel : Nat) (kd vd : List Char) (after : List Char) :
    parseMembers (fuel + 2) (memberChars kd vd after) =
      match skipWs after with
      | ',' :: r4 =>
        match parseMembers (fuel + 1) (skipWs r4) with
        | some (ms, r5) =>
          some ((String.mk kd, JValue.jstr (String.mk vd)) :: ms, r5)
        | none => none
      | '}' :: r4 => some ([(String.mk kd, JValue.jstr (String.mk vd))], r4)
      | _ => none := by
  show parseMembers ((fuel + 1) + 1) (memberChars kd vd after) = _
  rw [memberChars, parseMembers_quote]
  simp only [parseStrAux, parseStrS_escapeList, skipWs_colon]
  rw [show parseValue (fuel + 1)
      (' ' :: '"' :: (escapeList vd ++ ('"' :: after))) =
      some (JValue.jstr (String.mk vd), after) by
    rw [parseValue_space, parseValue_qstr]
    simp only [parseStrAux]
    rw [show escapeList vd ++ ('"' :: after) =
      escapeList vd ++ '"' :: after from rfl, parseStrS_escapeList]]

theorem parseMembers_member_cont (fuel : Nat) (kd vd : List Char)
    (rest : List Char) :
    parseMembers (fuel + 2) (memberChars kd vd (',' :: ' ' :: rest)) =
      match parseMembers (fuel + 1) (skipWs rest) with
      | some (ms, r5) =>
        some ((String.mk kd, JValue.jstr (String.mk vd)) :: ms, r5)
      | none => none := by
  rw [parseMembers_member]; exact rfl

theorem parseMembers_member_last (fuel : Nat) (kd vd : List Char)
    (rest : List Char) :
    parseMembers (fuel + 2) (memberChars kd vd ('}' :: rest)) =
      some ([(String.mk kd, JValue.jstr (String.mk vd))], rest) := by
  rw [parseMembers_member]; exact rfl

theorem serializeNotification_chars (n : NotificationMessage) :
    (serializeNotification n).data =
      '{' :: memberChars "message".data n.message.data (',' :: ' ' ::
        memberChars "item_id".data n.item_id.data (',' :: ' ' ::
          memberChars "timestamp".data n.timestamp.data ['}'])) := by
  simp [serializeNotification, memberChars, quoteStr, List.append_assoc]

theorem jsonParse_serializeNotification (n : NotificationMessage) :
    jsonParse (serializeNotification n) = some (notifJson n) := by
  unfold jsonParse
  rw [serializeNotification_chars]
  rw [show (serializeNotification n).length + 5 =
    ((serializeNotification n).length + 4) + 1 from rfl]
  rw [parseValue_obj_member]
  rw [show (serializeNotification n).length + 4 =
    ((serializeNotification n).length + 2) + 2 from rfl]
  rw [parseMembers_member_cont]
  rw [skipWs_memberChars]
  rw [show (serializeNotification n).length + 2 + 1 =
    ((serializeNotification n).length + 1) + 2 from rfl]
  rw [parseMembers_member_cont]
  rw [skipWs_memberChars]
  rw [show (serializeNotification n).length + 1 + 1 =
    (serializeNotification n).length + 2 from rfl]
  rw [parseMembers_member_last]
  exact rfl

/-! ## The claims -/

/-- C7: every Cache Store operation (set, get, delete, increment, read
counter, keys, info — and the session pair of the same shape) called
while the store client is not connected returns its benign fallback
value (`None`, `False`, or the empty list) without raising, leaving
the store untouched. -/
theorem cache_ops_degrade_when_disconnected (raises : Bool) (db : RedisDB)
    (item_id dat pat counter_name session_id : String) (hours : Nat) (v : Int) :
    set_item_cache false raises db item_id dat hours = (false, db)
    ∧ get_item_cache false raises db item_id = none
    ∧ delete_item_cache false raises db item_id = (false, db)
    ∧ set_counter false raises db counter_name v = (none, db)
    ∧ get_counter false raises db counter_name = none
    ∧ set_session false raises db session_id dat hours = (false, db)
    ∧ get_session false raises db session_id = none
    ∧ get_all_keys false raises db pat = []
    ∧ get_redis_info false raises db = none := by
  simp [set_item_cache, get_item_cache, delete_item_cache, set_counter,
    get_counter, set_session, get_session, get_all_keys, get_redis_info]

/-- C8: counter increments are signed adjustments with
auto-initialization at 0: a first increment of a fresh counter by `v`
yields `v`, incrementing a fresh counter by 1 and then by 5 and then
reading it yields 6, and reading a never-set counter yields 0. -/
theorem counter_increment_auto_init (counter_name : String) (v : Int)
    (db : RedisDB) (h : dbLookup db ("counter:" ++ counter_name) = none) :
    (set_counter true false db counter_name v).1 = some v
    ∧ get_counter true false db counter_name = some 0
    ∧ (set_counter true false (set_counter true false db counter_name 1).2
        counter_name 5).1 = some 6
    ∧ get_counter true false
        (set_counter true false (set_counter true false db counter_name 1).2
          counter_name 5).2 counter_name = some 6 := by
  have h1 : set_counter true false db counter_name 1 =
      (some 1, dbSet db ("counter:" ++ counter_name) (toString (1 : Int)) 0) := by
    simp [set_counter, h]
  have e1 : parseIntStr (toString (1 : Int)) = some (1 : Int) := by decide
  have e6 : parseIntStr "6" = some (6 : Int) := by decide
  have s6 : toString (6 : Int) = "6" := by decide
  have h2 : set_counter true false
      (dbSet db ("counter:" ++ counter_name) (toString (1 : Int)) 0)
      counter_name 5 =
      (some 6, dbSet (dbSet db ("counter:" ++ counter_name) (toString (1 : Int)) 0)
        ("counter:" ++ counter_name) (toString (6 : Int)) 0) := by
    simp [set_counter, dbLookup_dbSet_self, e1]
  refine ⟨by simp [set_counter, h], by simp [get_counter, h], ?_, ?_⟩
  · rw [h1, h2]
  · rw [h1, h2]
    simp [get_counter, dbLookup_dbSet_self, e6, s6]

/-- C8 witness: the scenario run on an empty store for the counter
`items_created`. -/
theorem counter_increment_auto_init_witness :
    (set_counter true false ⟨[], []⟩ "items_created" 7).1 = some 7
    ∧ get_counter true false ⟨[], []⟩ "items_created" = some 0
    ∧ get_counter true false
        (set_counter true false (set_counter true false ⟨[], []⟩ "items_created" 1).2
          "items_created" 5).2 "items_created" = some 6 :=
  ⟨(counter_increment_auto_init "items_created" 7 ⟨[], []⟩ rfl).1,
   (counter_increment_auto_init "items_created" 7 ⟨[], []⟩ rfl).2.1,
   (counter_increment_auto_init "items_created" 7 ⟨[], []⟩ rfl).2.2.2⟩

/-- C10: the cache read operations conflate their failure modes:
`get_item_cache` returns `None` alike for a disconnected client, a
raising read, and a genuine miss, while `get_counter` returns 0 only
in the connected-and-absent case but `None` when disconnected or when
the read raises. -/
theorem cache_read_conflation (db : RedisDB) (item_id counter_name : String)
    (raises : Bool) :
    get_item_cache false raises db item_id = none
    ∧ get_item_cache true true db item_id = none
    ∧ (dbLookup db ("item:" ++ item_id) = none →
        get_item_cache true false db item_id = none)
    ∧ get_counter false raises db counter_name = none
    ∧ get_counter true true db counter_name = none
    ∧ (dbLookup db ("counter:" ++ counter_name) = none →
        get_counter true false db counter_name = some 0) := by
  refine ⟨by simp [get_item_cache], by simp [get_item_cache], ?_,
    by simp [get_counter], by simp [get_counter], ?_⟩
  · intro h; simp [get_item_cache, h]
  · intro h; simp [get_counter, h]

/-- C10 witness: the three `None` sources and the absent-counter 0 on
an empty store. -/
theorem cache_read_conflation_witness :
    get_item_cache false false ⟨[], []⟩ "42" = none
    ∧ get_item_cache true true ⟨[], []⟩ "42" = none
    ∧ get_item_cache true false ⟨[], []⟩ "42" = none
    ∧ get_counter true false ⟨[], []⟩ "items_created" = some 0 :=
  ⟨(cache_read_conflation ⟨[], []⟩ "42" "items_created" false).1,
   (cache_read_conflation ⟨[], []⟩ "42" "items_created" false).2.1,
   (cache_read_conflation ⟨[], []⟩ "42" "items_created" false).2.2.1 rfl,
   (cache_read_conflation ⟨[], []⟩ "42" "items_created" false).2.2.2.2.2 rfl⟩

/-- C9: in every consumer run that reaches the subscription, the
channel QoS was set to the default prefetch bound 1 before the
subscribe, and the durable `notifications` queue was declared before
the subscribe; moreover the publisher-side `connect_rabbitmq` declares
only that same durable queue. -/
theorem consumer_qos_and_declare_before_consume
    (connectOk chanOk qosOk declOk : Bool) (ok : Nat → Bool)
    (h : ConsumerEvent.consume "notifications" ∈
      consumer_main connectOk chanOk qosOk declOk) :
    (ConsumerEvent.setQos 1 ∈ consumer_main connectOk chanOk qosOk declOk
    ∧ ConsumerEvent.declareQueue "notifications" true ∈
        consumer_main connectOk chanOk qosOk declOk
    ∧ (consumer_main connectOk chanOk qosOk declOk).indexOf (.setQos 1) <
        (consumer_main connectOk chanOk qosOk declOk).indexOf
          (.consume "notifications")
    ∧ (consumer_main connectOk chanOk qosOk declOk).indexOf
        (.declareQueue "notifications" true) <
        (consumer_main connectOk chanOk qosOk declOk).indexOf
          (.consume "notifications"))
    ∧ (∀ nm d, ConnectEvent.declareQueue nm d ∈ (connect_rabbitmq ok).events →
        nm = "notifications" ∧ d = true) := by
  constructor
  · revert h; cases connectOk <;> cases chanOk <;> cases qosOk <;>
      cases declOk <;> decide
  · intro nm d hmem
    have := connectLoop_events_shape ok max_retries 0 _ hmem
    rcases this with h1 | h1 | h1 <;> simp_all

/-- C9 witness: the fully successful consumer run. -/
theorem consumer_qos_and_declare_before_consume_witness :
    ConsumerEvent.setQos 1 ∈ consumer_main true true true true
    ∧ (consumer_main true true true true).indexOf (.setQos 1) <
        (consumer_main true true true true).indexOf (.consume "notifications") :=
  ⟨((consumer_qos_and_declare_before_consume true true true true
      (fun _ => true) (by decide)).1).1,
   ((consumer_qos_and_declare_before_consume true true true true
      (fun _ => true) (by decide)).1).2.2.1⟩

/-- The whole-attempt view `connectLoop` returns exactly the Boolean
of the faithful loop: an attempt counts as `ok` precisely when all
three of its calls succeed. -/
theorem connectLoop_success_agrees (st : Nat → AttemptOutcome) :
    ∀ remaining attempt g,
      (connectLoopFull st attempt remaining g).success =
        (connectLoop (fun i => st i == .success) attempt remaining).success := by
  intro remaining
  induction remaining with
  | zero => intro attempt g; rfl
  | succ m ih =>
    intro attempt g
    by_cases hok : st attempt = .success
    · simp [connectLoopFull, connectLoop, hok]
    · have hbeq : (st attempt == .success) = false := by
        simp [hok]
      by_cases hm : m = 0
      · subst hm; simp [connectLoopFull, connectLoop, hok, hbeq]
      · simp [connectLoopFull, connectLoop, hok, hbeq, hm]
        exact ih (attempt + 1) (attemptGlobals (st attempt) g)

/-- `connect_rabbitmq` (the Boolean the handlers consume) agrees with
the faithful model on every environment. -/
theorem connect_rabbitmq_success_agrees (st : Nat → AttemptOutcome)
    (g : RabbitGlobals) :
    (connect_rabbitmq_full st g).success =
      (connect_rabbitmq (fun i => st i == .success)).success :=
  connectLoop_success_agrees st max_retries 0 g

/-- C2: for every delivered payload, the consumer dispatch converts
the processing outcome: when the payload decodes to a JSON object the
message is acked; when it does not — deserialization failure included
— the raised error is caught at the dispatch boundary and the message
is nacked with `requeue = true`; and the dispatch always returns one
of these two actions, so no processing failure terminates the
subscription loop. -/
theorem process_message_outcomes (body : String) :
    ((∃ ms, jsonParse body = some (.jobj ms)) → process_message body = .ack)
    ∧ ((∀ ms, jsonParse body ≠ some (.jobj ms)) →
        process_message body = .nack true)
    ∧ (process_message body = .ack ∨ process_message body = .nack true) := by
  refine ⟨?_, ?_, ?_⟩
  · rintro ⟨ms, hms⟩
    simp [process_message, hms]
  · intro hno
    unfold process_message
    rcases hj : jsonParse body with _ | v
    · rfl
    · cases v with
      | jobj ms => exact absurd hj (hno ms)
      | jnull => rfl
      | jbool b => rfl
      | jnum r => rfl
      | jstr s => rfl
      | jarr es => rfl
  · unfold process_message
    rcases jsonParse body with _ | v
    · right; rfl
    · cases v with
      | jobj ms => left; rfl
      | jnull => right; rfl
      | jbool b => right; rfl
      | jnum r => right; rfl
      | jstr s => right; rfl
      | jarr es => right; rfl

/-- C2 witness: a well-formed notification payload is acked; a
malformed payload is nacked with requeue. -/
theorem process_message_outcomes_witness :
    process_message "\x7b\"message\": \"hi\", \"item_id\": \"1\", \"timestamp\": \"t\"\x7d" = .ack
    ∧ process_message "not json" = .nack true := by
  refine ⟨(process_message_outcomes _).1
    ⟨[("message", .jstr "hi"), ("item_id", .jstr "1"), ("timestamp", .jstr "t")],
      rfl⟩, (process_message_outcomes "not json").2.1 ?_⟩
  intro ms hms
  rw [show jsonParse "not json" = none from rfl] at hms
  exact Option.noConfusion hms

/-- C3: when the publish path (`POST /notify`) finds no cached channel
and the single reconnect attempt fails, it responds 503 without ever
invoking the broker publish; and in every run the handler publishes at
most once and invokes `connect_rabbitmq` at most once — retry lives
only inside `connect_rabbitmq` itself. -/
theorem notify_unavailable_no_retry (channelPresent publishOk : Bool)
    (ok : Nat → Bool) :
    (channelPresent = false → (connect_rabbitmq ok).success = false →
      send_notification channelPresent ok publishOk = ⟨503, false, 1, 0⟩)
    ∧ (send_notification channelPresent ok publishOk).publishAttempts ≤ 1
    ∧ (send_notification channelPresent ok publishOk).connectCalls ≤ 1 := by
  refine ⟨?_, ?_, ?_⟩
  · intro hch hc
    simp [send_notification, hch, hc]
  · rcases hc : (connect_rabbitmq ok).success <;>
      cases channelPresent <;> cases publishOk <;> simp [send_notification, hc]
  · rcases hc : (connect_rabbitmq ok).success <;>
      cases channelPresent <;> cases publishOk <;> simp [send_notification, hc]

/-- C3 witness: no channel and a broker that refuses all five
attempts. -/
theorem notify_unavailable_no_retry_witness :
    send_notification false (fun _ => false) true = ⟨503, false, 1, 0⟩ :=
  (notify_unavailable_no_retry false true (fun _ => false)).1 rfl rfl

/-- C4 counterexample: with the record insert committed and a
connected channel whose publish raises, `create_item` responds HTTP
500, not the created-item response the claim promises — even though
the record stays committed. -/
theorem create_item_publish_error_gives_500 :
    (create_item true false true true false true).committed = true
    ∧ (create_item true false true true false true).status = 500
    ∧ (create_item true false true true false true).status ≠ 200 := by
  decide

/-- C4 (amended): once the insert has committed the record always
stays committed; when no connected channel exists the notification is
simply not emitted and (absent other raising steps) the caller still
receives the successful created-item response; but an error raised by
the publish call makes the request fail with HTTP 500 — non-fatal
only to the stored record, not to the response. -/
theorem create_item_commit_semantics
    (insertOk redisPresent cacheOk channelPresent publishOk findOk : Bool)
    (h : insertOk = true) :
    (create_item insertOk redisPresent cacheOk channelPresent publishOk
      findOk).committed = true
    ∧ (channelPresent = false →
        (create_item insertOk redisPresent cacheOk channelPresent publishOk
          findOk).notified = false)
    ∧ (channelPresent = false → (redisPresent = false ∨ cacheOk = true) →
        findOk = true →
        (create_item insertOk redisPresent cacheOk channelPresent publishOk
          findOk).status = 200)
    ∧ (channelPresent = true → publishOk = false →
        (create_item insertOk redisPresent cacheOk channelPresent publishOk
          findOk).status = 500) := by
  subst h
  cases redisPresent <;> cases cacheOk <;> cases channelPresent <;>
    cases publishOk <;> cases findOk <;> decide

/-- C4 witness: committed record with skipped notification and a 200
response when no channel exists; committed record with a 500 response
when the publish raises. -/
theorem create_item_commit_semantics_witness :
    (create_item true false true false true true).status = 200
    ∧ (create_item true false true false true true).notified = false
    ∧ (create_item true false true true false true).committed = true
    ∧ (create_item true false true true false true).status = 500 :=
  ⟨(create_item_commit_semantics true false true false true true rfl).2.2.1
      rfl (.inl rfl) rfl,
   (create_item_commit_semantics true false true false true true rfl).2.1 rfl,
   (create_item_commit_semantics true false true true false true rfl).1,
   (create_item_commit_semantics true false true true false true rfl).2.2.2
      rfl rfl⟩

/-- C6: whenever the health probe finds the broker connection absent
or closed, it invokes `connect_rabbitmq` exactly once and reports that
single outcome: `reconnected` on success, `disconnected` with overall
status `degraded` on failure. -/
theorem health_probe_single_reconnect
    (mongoOk redisPresent redisOk connPresent connClosed channelPresent
      getQueueOk : Bool) (ok : Nat → Bool)
    (h : (connPresent && !connClosed) = false) :
    (health_check mongoOk redisPresent redisOk connPresent connClosed
      channelPresent getQueueOk ok).rabbitConnectCalls = 1
    ∧ ((connect_rabbitmq ok).success = true →
        (health_check mongoOk redisPresent redisOk connPresent connClosed
          channelPresent getQueueOk ok).rabbitmq = "reconnected")
    ∧ ((connect_rabbitmq ok).success = false →
        (health_check mongoOk redisPresent redisOk connPresent connClosed
          channelPresent getQueueOk ok).rabbitmq = "disconnected"
        ∧ (health_check mongoOk redisPresent redisOk connPresent connClosed
            channelPresent getQueueOk ok).status = "degraded") := by
  rcases hc : (connect_rabbitmq ok).success <;>
    simp [health_check, h, hc]

/-- C6 witness: a closed connection with a broker that refuses all
five attempts, and one that accepts the first. -/
theorem health_probe_single_reconnect_witness :
    (health_check true true true false false true true
      (fun _ => false)).rabbitmq = "disconnected"
    ∧ (health_check true true true false false true true
        (fun _ => false)).status = "degraded"
    ∧ (health_check true true true false false true true
        (fun _ => true)).rabbitmq = "reconnected"
    ∧ (health_check true true true false false true true
        (fun _ => false)).rabbitConnectCalls = 1 :=
  ⟨((health_probe_single_reconnect true true true false false true true
      (fun _ => false) rfl).2.2 rfl).1,
   ((health_probe_single_reconnect true true true false false true true
      (fun _ => false) rfl).2.2 rfl).2,
   (health_probe_single_reconnect true true true false false true true
      (fun _ => true) rfl).2.1 rfl,
   (health_probe_single_reconnect true true true false false true true
      (fun _ => false) rfl).1⟩

/-- C5: a published notification event round-trips: serializing a
`NotificationMessage` to its UTF-8 JSON wire form
(`{ "message", "item_id", "timestamp" }`), publishing, consuming and
deserializing the payload yields the original event back — each of the
three fields is recovered unchanged by the consumer's field reads —
and the consumer acks such a payload. -/
theorem notification_roundtrip (n : NotificationMessage) :
    deserializeNotification (serializeNotification n) = some n
    ∧ consumedFields (serializeNotification n) =
        some (.jstr n.message, .jstr n.item_id, .jstr n.timestamp)
    ∧ process_message (serializeNotification n) = .ack := by
  have h := jsonParse_serializeNotification n
  refine ⟨?_, ?_, ?_⟩ <;>
    simp [deserializeNotification, consumedFields, process_message, h,
      notifJson, lookupMember]
